import Mathlib

/-!
Shallow embedding of the session-licensing core of the VoiceGuide AirLink
backend (Python/SQLAlchemy), together with proofs about the claims of its
specification.

Conventions of the embedding:
* Timestamps are modelled as `Int` seconds (Python `datetime` values at
  second granularity).  `datetime` subtraction followed by
  `.total_seconds() / 60.0` and `int(...)` truncation is exact at this
  granularity (the float `s/60.0` is more than half an ulp away from any
  other integer for all realistic magnitudes), and is modelled by
  truncated division `truncDiv`.
* A database state is a record of row lists; a CRUD function returns its
  result together with the database state as committed when the function
  returns.  Paths of the source that return before any `db.commit()`
  leave the state unchanged (uncommitted attribute writes are dropped,
  which is their net effect).
* SQLAlchemy object updates mutate one row object found by a query
  (`.first()`); they are modelled by `updateFirst`, which rewrites the
  first row satisfying the query predicate.
* Random identifiers (UUID primary keys, `gen_pin` draws) are passed in
  as explicit parameters.
-/

namespace AirLink

/-! ## Data model (app/models/license.py, session.py, listener.py, event.py) -/

structure LicenseRow where
  id : Nat
  code : String
  duration_minutes : Int
  max_listeners : Int
  is_active : Bool
  activated_at : Option Int
  deriving Repr, DecidableEq

structure SessionRow where
  id : Nat
  license_id : Nat
  pin : String
  started_at : Int
  ended_at : Option Int
  expires_at : Int
  max_listeners : Int
  is_active : Bool
  deriving Repr, DecidableEq

structure ListenerRow where
  id : Nat
  session_id : Nat
  display_name : Option String
  joined_at : Int
  left_at : Option Int
  is_connected : Bool
  deriving Repr, DecidableEq

/-- A row of the `events` table written by `app.core.utils.log_event`. -/
structure EventRow where
  type : String
  session_id : Option Nat
  description : Option String
  deriving Repr, DecidableEq

structure DB where
  licenses : List LicenseRow
  sessions : List SessionRow
  listeners : List ListenerRow
  events : List EventRow
  deriving Repr, DecidableEq

/-! ## Generic helpers -/

/-- Replace the first element satisfying `p` (SQLAlchemy: mutate the row
object returned by `.filter(...).first()`). -/
def updateFirst (p : α → Bool) (f : α → α) : List α → List α
  | [] => []
  | x :: xs => if p x then f x :: xs else x :: updateFirst p f xs

/-- Models `db.add` on a license object: replace the row with the same primary
key if present, insert it otherwise. -/
def upsertLicense : List LicenseRow → LicenseRow → List LicenseRow
  | [], l => [l]
  | r :: rest, l => if r.id == l.id then l :: rest else r :: upsertLicense rest l

/-- Truncated division of an `Int` by a positive constant, toward zero:
the value of Python `int(a / b)` when `a / b` is computed in floating
point from exact integer inputs at our granularity. -/
def truncDiv (a : Int) (b : Nat) : Int :=
  if 0 ≤ a then ((a.toNat / b : Nat) : Int) else -(((-a).toNat / b : Nat) : Int)

/-! ## License ledger (app/crud/license_crud.py) -/

def PIN_GENERATION_TRIES : Nat := 6

/-- Membership check `max_listeners in ALLOWED_MAX_LISTENERS` with
`ALLOWED_MAX_LISTENERS = {10, 25, 35, 100}`. -/
def allowedMaxListeners (n : Int) : Bool :=
  n == 10 || n == 25 || n == 35 || n == 100

def findLicenseByCode (db : DB) (code : String) : Option LicenseRow :=
  db.licenses.find? (fun l => l.code == code)

/-- Python `int(getattr(lic, "duration_minutes", 240) or 240)`: the column is
always present, but Python `or` replaces the falsy value `0` (and a null)
by the fallback `240`. -/
def effDuration (l : LicenseRow) : Int :=
  if l.duration_minutes = 0 then 240 else l.duration_minutes

/-- Python `int(getattr(license_obj, "max_listeners", 10) or 10)`. -/
def effMaxListeners (l : LicenseRow) : Int :=
  if l.max_listeners = 0 then 10 else l.max_listeners

/-- Python `max(0, int((now - activated_at).total_seconds() / 60.0))`. -/
def elapsedMinutes (now t : Int) : Int :=
  max 0 (truncDiv (now - t) 60)

/-- Result of `activate_license`: the source returns
`(None, "license_not_found")`, `(None, "license_used")` or
`(lic, remaining_minutes)`. -/
inductive ActResult
  | notFound
  | used
  | ok (lic : LicenseRow) (remaining : Int)
  deriving Repr, DecidableEq

/-- The first-activation update of a license object:
`is_active = True`, `activated_at = now`. -/
def activatedLicense (lic : LicenseRow) (now : Int) : LicenseRow :=
  { lic with is_active := true, activated_at := some now }

/-- Embeds `activate_license(db, code)`.  The `License` model has no
`updated_at` column, so both `hasattr(lic, "updated_at")` guards are
false and the already-active branch commits nothing. -/
def activate_license (db : DB) (code : String) (now : Int) : ActResult × DB :=
  match findLicenseByCode db code with
  | none => (.notFound, db)
  | some lic =>
    match lic.activated_at, lic.is_active with
    | some _, false => (.used, db)
    | none, _ =>
      (.ok (activatedLicense lic now) (effDuration lic),
       { db with licenses := upsertLicense db.licenses (activatedLicense lic now) })
    | some t, true =>
      (.ok lic (max 0 (effDuration lic - elapsedMinutes now t)), db)

/-- The PIN-uniqueness query of the generation loop:
is some *active* session already using this pin? -/
def activePinExists (db : DB) (pin : String) : Bool :=
  (db.sessions.find? (fun s => s.pin == pin && s.is_active)).isSome

/-- The pin-generation loop: up to `PIN_GENERATION_TRIES` random
candidates (passed in as `pins`), keep the first that no active session
uses. -/
def pickPin (db : DB) (pins : List String) : Option String :=
  (pins.take PIN_GENERATION_TRIES).find? (fun c => !activePinExists db c)

/-- Embeds `compute_expiry(now, minutes) = now + timedelta(minutes=minutes)`. -/
def compute_expiry (start : Int) (minutes : Int) : Int :=
  start + 60 * minutes

/-- Python `max_listeners = int(requested_max_listeners or default_ml)`:
Python `or` falls back to the license default on `None` and on `0`. -/
def requestedMl (lic : LicenseRow) (requested : Option Int) : Int :=
  match requested with
  | none => effMaxListeners lic
  | some r => if r = 0 then effMaxListeners lic else r

/-- The new session row built on the success path of
`start_session_for_license`: `remaining_minutes =
max(0, int(duration_minutes - int(elapsed)))` and
`expires_at = compute_expiry(now, remaining_minutes)`. -/
def freshSession (lic : LicenseRow) (pin : String) (sid : Nat) (now t ml : Int) :
    SessionRow :=
  { id := sid, license_id := lic.id, pin := pin, started_at := now,
    ended_at := none,
    expires_at := compute_expiry now (max 0 (effDuration lic - truncDiv (now - t) 60)),
    max_listeners := ml, is_active := true }

/-- Embeds `start_session_for_license(db, license_obj, requested_max_listeners)`.

* `pins` are the random draws of `gen_pin(6)`, `sid` the generated
  session primary key, `now` the value of `utcnow()`.
* The float comparison `elapsed >= duration_minutes` with
  `elapsed = (now - t)/60.0` is the exact comparison `now - t ≥ 60*d`.
* On the `pin_generation_failed` path the pending deactivation of the
  license object is never committed, so the state is unchanged.
* The `IntegrityError` rollback path (a lost race on the unique pin
  column) is not modelled: the embedding describes the committed
  success path.
-/
def start_session_for_license (db : DB) (lic : LicenseRow) (requested : Option Int)
    (pins : List String) (sid : Nat) (now : Int) :
    Except String SessionRow × DB :=
  if !lic.is_active || lic.activated_at.isNone then
    (.error "license_not_active", db)
  else
    match lic.activated_at with
    | none => (.error "license_not_active", db)
    | some t =>
      if 60 * effDuration lic ≤ now - t then
        (.error "license_expired",
         { db with licenses := upsertLicense db.licenses { lic with is_active := false } })
      else
        if !allowedMaxListeners (requestedMl lic requested) then
          (.error "invalid_max_listeners", db)
        else
          match pickPin db pins with
          | none => (.error "pin_generation_failed", db)
          | some pin =>
            (.ok (freshSession lic pin sid now t (requestedMl lic requested)),
             { db with
                 licenses := upsertLicense db.licenses { lic with is_active := false },
                 sessions := db.sessions ++
                   [freshSession lic pin sid now t (requestedMl lic requested)] })

/-- Number of listener rows the capacity check counts:
`db.query(Listener).filter(Listener.session_id == session.id).count()`
(all rows of the session, connected or not). -/
def countedListeners (db : DB) (sid : Nat) : Nat :=
  (db.listeners.filter (fun l => l.session_id == sid)).length

/-- Connected listeners of a session (what the spec's capacity sentence
speaks about; compare `Session.active_listeners` in the model). -/
def connectedListeners (db : DB) (sid : Nat) : Nat :=
  (db.listeners.filter (fun l => l.session_id == sid && l.is_connected)).length

/-- The lazy-expiry guard of `join_session_by_pin`: flip `is_active` of
the session object found by the pin query (no `ended_at`, no cascade). -/
def lazyExpire (sessions : List SessionRow) (pin : String) : List SessionRow :=
  updateFirst (fun r => r.pin == pin && r.is_active)
    (fun r => { r with is_active := false }) sessions

/-- The listener row inserted on a successful join (`is_connected`
defaults to true, `left_at` to null, `joined_at` to `utcnow()`). -/
def freshListener (sid : Nat) (displayName : Option String) (lid : Nat) (now : Int) :
    ListenerRow :=
  { id := lid, session_id := sid, display_name := displayName,
    joined_at := now, left_at := none, is_connected := true }

/-- Embeds `join_session_by_pin(db, pin, display_name)`; `lid` is the generated
listener primary key, `now` the value of `utcnow()`. -/
def join_session_by_pin (db : DB) (pin : String) (displayName : Option String)
    (lid : Nat) (now : Int) : Except String ListenerRow × DB :=
  match db.sessions.find? (fun s => s.pin == pin && s.is_active) with
  | none => (.error "session_not_found", db)
  | some s =>
    if s.expires_at ≤ now then
      (.error "session_expired", { db with sessions := lazyExpire db.sessions pin })
    else
      if s.max_listeners ≤ (countedListeners db s.id : Int) then
        (.error "session_full", db)
      else
        (.ok (freshListener s.id displayName lid now),
         { db with listeners := db.listeners ++ [freshListener s.id displayName lid now] })

/-! ## Session termination engine (app/core/session_end.py) -/

/-- Models `Listener.disconnect()`: set `is_connected = False`, `left_at = now`
only if still connected (`_disconnect_listener` guards the same way). -/
def disconnectListener (l : ListenerRow) (now : Int) : ListenerRow :=
  if l.is_connected then { l with is_connected := false, left_at := some now } else l

/-- The listener rows `session.listeners` of the ORM relationship:
all rows with this `session_id`. -/
def sessionListeners (db : DB) (sid : Nat) : List ListenerRow :=
  db.listeners.filter (fun l => l.session_id == sid)

/-- The `listener_left` events logged by a termination pass: one per
listener that was still connected. -/
def listenerLeftEvents (db : DB) (sid : Nat) (suffix : String) : List EventRow :=
  (sessionListeners db sid).filterMap fun l =>
    if l.is_connected then
      some { type := "listener_left", session_id := some sid,
             description := some ("listener_id=" ++ toString l.id ++ suffix) }
    else none

/-- The per-listener step of a termination pass: disconnect the
listener if it belongs to the session being closed. -/
def stepOne (sid : Nat) (now : Int) (l : ListenerRow) : ListenerRow :=
  if l.session_id == sid then disconnectListener l now else l

/-- The listener cascade of a termination pass: disconnect every
listener row of the session (`disconnectListener` is the identity on
already-disconnected ones). -/
def disconnectAll (listeners : List ListenerRow) (sid : Nat) (now : Int) :
    List ListenerRow :=
  listeners.map (stepOne sid now)

/-- The session-row update of the normal termination transition:
`is_active = False`, `ended_at = now` on the row object found by id. -/
def closeSession (sessions : List SessionRow) (sid : Nat) (now : Int) :
    List SessionRow :=
  updateFirst (fun r => r.id == sid)
    (fun r => { r with is_active := false, ended_at := some now }) sessions

/-- Events appended by the normal termination transition when an
`event_logger` is present. -/
def closeEvents (db : DB) (sid : Nat) (reason : String) (useLogger : Bool) :
    List EventRow :=
  if useLogger then
    listenerLeftEvents db sid (";reason=session_" ++ reason) ++
      [{ type := "session_ended", session_id := some sid,
         description := some ("reason=" ++ reason) }]
  else []

/-- Embeds `end_session_logic(db, session_id, reason=..., event_logger=...,
kill_switch=...)`.

* `useLogger` is `event_logger is not None`; `_safe_log_event` writes an
  `events` row through `log_event` and never fails the main flow.
* Every in-repo caller passes `kill_switch=None`, so the best-effort
  kill switch is a no-op here (it touches no database row in any case).
* Returns the session row as committed (or `none` when the id does not
  exist). -/
def end_session_logic (db : DB) (sid : Nat) (now : Int) (reason : String)
    (useLogger : Bool) : Option SessionRow × DB :=
  match db.sessions.find? (fun s => s.id == sid) with
  | none => (none, db)
  | some s =>
    if !s.is_active && s.ended_at.isSome then
      -- already-closed "late sync" pass: only listeners are reconciled
      (some s,
       { db with listeners := disconnectAll db.listeners s.id now,
                 events := db.events ++
                   (if useLogger then listenerLeftEvents db s.id " (late sync)" else []) })
    else
      -- normal Active → Ended transition
      (some { s with is_active := false, ended_at := some now },
       { db with sessions := closeSession db.sessions sid now,
                 listeners := disconnectAll db.listeners s.id now,
                 events := db.events ++ closeEvents db s.id reason useLogger })

/-- Embeds `end_session(db, session_id)` of app/crud/license_crud.py:
delegates to `end_session_logic` with `reason="manual"` and
`event_logger=None`, and reports whether the session existed. -/
def end_session (db : DB) (sid : Nat) (now : Int) : Bool × DB :=
  ((end_session_logic db sid now "manual" false).1.isSome,
   (end_session_logic db sid now "manual" false).2)

/-- The candidate query of the sweeper:
`is_active == True AND expires_at <= now`. -/
def expiredActive (db : DB) (now : Int) : List SessionRow :=
  db.sessions.filter (fun s => s.is_active && decide (s.expires_at ≤ now))

/-- The `for s in candidates` loop of `close_all_expired_sessions`:
drive each candidate through `end_session_logic` with reason `"auto"`,
incrementing the counter when the session existed. -/
def closeFold (now : Int) : Nat × DB → List SessionRow → Nat × DB
  | acc, [] => acc
  | acc, s :: rest =>
    closeFold now
      (if (end_session_logic acc.2 s.id now "auto" true).1.isSome
         then acc.1 + 1 else acc.1,
       (end_session_logic acc.2 s.id now "auto" true).2)
      rest

/-- Embeds `close_all_expired_sessions(db, now=now, event_logger=log_event)`
as invoked by the auto-close scheduler loop: materialize the candidate
list, drive each through `end_session_logic` with reason `"auto"`, count
the ones that existed. -/
def close_all_expired_sessions (db : DB) (now : Int) : Nat × DB :=
  closeFold now (0, db) (expiredActive db now)

def findLicenseById (db : DB) (i : Nat) : Option LicenseRow :=
  db.licenses.find? (fun l => l.id == i)

def findSessionById (db : DB) (i : Nat) : Option SessionRow :=
  db.sessions.find? (fun s => s.id == i)

/-! ## Helper lemmas -/

theorem find_upsert_self (ls : List LicenseRow) (l : LicenseRow) :
    (upsertLicense ls l).find? (fun r => r.id == l.id) = some l := by
  induction ls with
  | nil => simp [upsertLicense, List.find?]
  | cons r rest ih =>
    by_cases h : r.id = l.id
    · simp [upsertLicense, List.find?, h]
    · simp [upsertLicense, List.find?, h, ih]

theorem findLicenseById_upsert (db : DB) (ls : List LicenseRow) (l : LicenseRow)
    (ss : List SessionRow) (lns : List ListenerRow) (evs : List EventRow)
    (i : Nat) (hid : l.id = i) :
    findLicenseById
      { db with licenses := upsertLicense ls l, sessions := ss,
                listeners := lns, events := evs } i = some l := by
  subst hid
  simpa [findLicenseById] using find_upsert_self ls l

/-- C2: a successful `start_session_for_license` deactivates the license
in the same committed state that contains the new session row, and any
later `start_session_for_license` on that license (as re-read from the
new state) returns `license_not_active` and changes nothing. -/
theorem start_session_one_license_one_tour
    (db : DB) (lic : LicenseRow) (req : Option Int) (pins : List String)
    (sid : Nat) (now : Int) (s : SessionRow)
    (h : (start_session_for_license db lic req pins sid now).1 = .ok s) :
    findLicenseById (start_session_for_license db lic req pins sid now).2 lic.id
        = some { lic with is_active := false } ∧
    s ∈ (start_session_for_license db lic req pins sid now).2.sessions ∧
    ∀ lic2 req2 pins2 sid2 now2,
      findLicenseById (start_session_for_license db lic req pins sid now).2 lic.id
          = some lic2 →
      start_session_for_license (start_session_for_license db lic req pins sid now).2
          lic2 req2 pins2 sid2 now2
        = (.error "license_not_active",
           (start_session_for_license db lic req pins sid now).2) := by
  rcases hR : start_session_for_license db lic req pins sid now with ⟨r, db'⟩
  simp only [hR] at h ⊢
  subst h
  unfold start_session_for_license at hR
  split at hR
  · simp at hR
  · split at hR
    · simp at hR
    · split at hR
      · simp at hR
      · split at hR
        · simp at hR
        · split at hR
          · simp at hR
          · injection hR with h1 h2
            injection h1 with h1
            subst h2
            refine ⟨?_, by simp [← h1], ?_⟩
            · exact findLicenseById_upsert db _ _ _ _ _ _ rfl
            · intro lic2 req2 pins2 sid2 now2 hfind
              rw [findLicenseById_upsert db _ _ _ _ _ _ rfl] at hfind
              cases hfind
              simp [start_session_for_license]

theorem find_updateFirst_self (p : α → Bool) (f : α → α) (l : List α) (x : α)
    (h : l.find? p = some x) (hf : p (f x) = true) :
    (updateFirst p f l).find? p = some (f x) := by
  induction l with
  | nil => simp [List.find?] at h
  | cons y ys ih =>
    by_cases hp : p y
    · rw [List.find?_cons_of_pos _ hp] at h
      cases h
      simp [updateFirst, hp, List.find?_cons_of_pos _ hf]
    · rw [List.find?_cons_of_neg _ (by simpa using hp)] at h
      simp [updateFirst, hp, List.find?_cons_of_neg, ih h]

theorem end_session_logic_notFound (db : DB) (sid : Nat) (now : Int)
    (reason : String) (ul : Bool)
    (h : db.sessions.find? (fun s => s.id == sid) = none) :
    end_session_logic db sid now reason ul = (none, db) := by
  simp [end_session_logic, h]

theorem end_session_logic_late (db : DB) (sid : Nat) (now : Int)
    (reason : String) (ul : Bool) (s : SessionRow)
    (h : db.sessions.find? (fun r => r.id == sid) = some s)
    (ha : s.is_active = false) (he : s.ended_at.isSome) :
    end_session_logic db sid now reason ul =
      (some s,
       { db with listeners := disconnectAll db.listeners s.id now,
                 events := db.events ++
                   (if ul then listenerLeftEvents db s.id " (late sync)" else []) }) := by
  simp [end_session_logic, h, ha, he]

theorem end_session_logic_normal (db : DB) (sid : Nat) (now : Int)
    (reason : String) (ul : Bool) (s : SessionRow)
    (h : db.sessions.find? (fun r => r.id == sid) = some s)
    (hc : s.is_active = true ∨ s.ended_at = none) :
    end_session_logic db sid now reason ul =
      (some { s with is_active := false, ended_at := some now },
       { db with sessions := closeSession db.sessions sid now,
                 listeners := disconnectAll db.listeners s.id now,
                 events := db.events ++ closeEvents db s.id reason ul }) := by
  have hcond : (!s.is_active && s.ended_at.isSome) = false := by
    rcases hc with hc | hc <;> simp [hc]
  simp [end_session_logic, h, hcond]

/-- C1: `end_session` is idempotent.  When no session has the id it
returns `False` and changes nothing; when the session exists, both the
first and the second manual call return `True`, after the first call
the session row has `ended_at` set, and the second call returns the
very same row unchanged. -/
theorem end_session_idempotent (db : DB) (sid : Nat) (n1 n2 : Int) :
    (findSessionById db sid = none → end_session db sid n1 = (false, db)) ∧
    ((findSessionById db sid).isSome →
      (end_session db sid n1).1 = true ∧
      (end_session (end_session db sid n1).2 sid n2).1 = true ∧
      ∃ s1, findSessionById (end_session db sid n1).2 sid = some s1 ∧
        s1.ended_at.isSome ∧
        findSessionById (end_session (end_session db sid n1).2 sid n2).2 sid
          = some s1) := by
  refine ⟨?_, ?_⟩
  · intro hn
    simp only [findSessionById] at hn
    simp [end_session, end_session_logic_notFound db sid n1 "manual" false hn]
  intro h
  simp only [findSessionById] at h ⊢
  rcases hs : db.sessions.find? (fun s => s.id == sid) with _ | s
  · rw [hs] at h; simp at h
  · have hsid := List.find?_some hs
    have key : ∃ r1, (end_session_logic db sid n1 "manual" false).1 = some r1 ∧
        (end_session_logic db sid n1 "manual" false).2.sessions.find?
          (fun r => r.id == sid) = some r1 ∧
        r1.is_active = false ∧ r1.ended_at.isSome := by
      by_cases ha : s.is_active = true
      · have h1 := end_session_logic_normal db sid n1 "manual" false s hs (Or.inl ha)
        refine ⟨{ s with is_active := false, ended_at := some n1 },
          by rw [h1], ?_, rfl, rfl⟩
        rw [h1]
        exact find_updateFirst_self _ _ _ _ hs (by simpa using hsid)
      · have ha' : s.is_active = false := by simpa using ha
        by_cases he : s.ended_at.isSome
        · have h1 := end_session_logic_late db sid n1 "manual" false s hs ha' he
          exact ⟨s, by rw [h1], by rw [h1]; exact hs, ha', he⟩
        · have hnone : s.ended_at = none := by
            cases hval : s.ended_at with
            | none => rfl
            | some t => rw [hval] at he; simp at he
          have h1 := end_session_logic_normal db sid n1 "manual" false s hs (Or.inr hnone)
          refine ⟨{ s with is_active := false, ended_at := some n1 },
            by rw [h1], ?_, rfl, rfl⟩
          rw [h1]
          exact find_updateFirst_self _ _ _ _ hs (by simpa using hsid)
    obtain ⟨r1, hres1, hs1, hra, hre⟩ := key
    have h2 := end_session_logic_late _ sid n2 "manual" false r1 hs1 hra hre
    refine ⟨by simp [end_session, hres1], by simp [end_session, h2], r1,
      by simpa [end_session] using hs1, hre, ?_⟩
    simp only [end_session, h2]
    exact hs1

/-! ## Sweep machinery: pointwise listener evolution and id-stability -/

/-- Cumulative effect on one listener row of closing the sessions with
the given ids, in order. -/
def stepsFn (ids : List Nat) (now : Int) (l : ListenerRow) : ListenerRow :=
  ids.foldl (fun acc sid => stepOne sid now acc) l

/-- The listener-row well-formedness invariant of the data model:
`left_at` is set whenever the listener is disconnected. -/
def ListenerWF (l : ListenerRow) : Prop :=
  l.is_connected = false → l.left_at ≠ none

theorem stepOne_session_id (sid : Nat) (now : Int) (l : ListenerRow) :
    (stepOne sid now l).session_id = l.session_id := by
  by_cases h : l.session_id == sid <;> by_cases hc : l.is_connected <;>
    simp [stepOne, disconnectListener, h, hc]

theorem stepOne_of_disconnected (sid : Nat) (now : Int) (l : ListenerRow)
    (h : l.is_connected = false) : stepOne sid now l = l := by
  by_cases hm : l.session_id == sid <;> simp [stepOne, disconnectListener, hm, h]

theorem stepOne_WF (sid : Nat) (now : Int) (l : ListenerRow) (h : ListenerWF l) :
    ListenerWF (stepOne sid now l) := by
  by_cases hc : l.is_connected
  · by_cases hm : l.session_id == sid
    · simp [stepOne, disconnectListener, hm, hc, ListenerWF]
    · simpa [stepOne, hm] using h
  · rw [stepOne_of_disconnected sid now l (by simpa using hc)]
    exact h

theorem stepsFn_of_disconnected (ids : List Nat) (now : Int) (l : ListenerRow)
    (h : l.is_connected = false) : stepsFn ids now l = l := by
  induction ids with
  | nil => rfl
  | cons i ids ih =>
    show stepsFn ids now (stepOne i now l) = l
    rw [stepOne_of_disconnected i now l h, ih]

theorem stepsFn_session_id (ids : List Nat) (now : Int) (l : ListenerRow) :
    (stepsFn ids now l).session_id = l.session_id := by
  induction ids generalizing l with
  | nil => rfl
  | cons i ids ih =>
    show (stepsFn ids now (stepOne i now l)).session_id = l.session_id
    rw [ih, stepOne_session_id]

theorem stepsFn_WF (ids : List Nat) (now : Int) (l : ListenerRow)
    (h : ListenerWF l) : ListenerWF (stepsFn ids now l) := by
  induction ids generalizing l with
  | nil => exact h
  | cons i ids ih =>
    show ListenerWF (stepsFn ids now (stepOne i now l))
    exact ih _ (stepOne_WF i now l h)

/-- Closing a list of sessions that includes the listener's own session
leaves the listener disconnected with `left_at` set. -/
theorem stepsFn_disconnects (ids : List Nat) (now : Int) (l : ListenerRow)
    (hmem : l.session_id ∈ ids) (hwf : ListenerWF l) :
    (stepsFn ids now l).is_connected = false ∧
      (stepsFn ids now l).left_at ≠ none := by
  induction ids generalizing l with
  | nil => simp at hmem
  | cons i ids ih =>
    show (stepsFn ids now (stepOne i now l)).is_connected = false ∧
      (stepsFn ids now (stepOne i now l)).left_at ≠ none
    by_cases hc : l.is_connected
    · by_cases hm : l.session_id = i
      · have hstep : stepOne i now l
            = { l with is_connected := false, left_at := some now } := by
          simp [stepOne, disconnectListener, hm, hc]
        rw [hstep, stepsFn_of_disconnected _ _ _ rfl]
        simp
      · have hstep : stepOne i now l = l := by simp [stepOne, hm]
        rw [hstep]
        rcases List.mem_cons.1 hmem with h | h
        · exact absurd h hm
        · exact ih l h hwf
    · have hc' : l.is_connected = false := by simpa using hc
      rw [stepOne_of_disconnected i now l hc', stepsFn_of_disconnected _ _ _ hc']
      exact ⟨hc', hwf hc'⟩

theorem updateFirst_map (p : α → Bool) (f : α → α) (g : α → β) (l : List α)
    (hf : ∀ x, g (f x) = g x) : (updateFirst p f l).map g = l.map g := by
  induction l with
  | nil => rfl
  | cons y ys ih =>
    by_cases hp : p y
    · simp [updateFirst, hp, hf]
    · simp [updateFirst, hp, ih]

theorem find?_updateFirst_of_disjoint (p q : α → Bool) (f : α → α) (l : List α)
    (hd : ∀ x, p x = true → q x = false) (hf : ∀ x, q (f x) = q x) :
    (updateFirst p f l).find? q = l.find? q := by
  induction l with
  | nil => rfl
  | cons y ys ih =>
    by_cases hp : p y
    · have hq : q y = false := hd y hp
      rw [updateFirst, if_pos hp, List.find?_cons_of_neg _ (by rw [hf]; simp [hq]),
        List.find?_cons_of_neg _ (by simp [hq])]
    · rw [updateFirst, if_neg hp]
      by_cases hq : q y
      · rw [List.find?_cons_of_pos _ hq, List.find?_cons_of_pos _ hq]
      · rw [List.find?_cons_of_neg _ (by simpa using hq),
          List.find?_cons_of_neg _ (by simpa using hq), ih]

/-- In a list whose ids are `Nodup`, the first-match query by an
element's id returns exactly that element. -/
theorem find?_of_nodup_ids (l : List SessionRow)
    (hnd : (l.map (fun s => s.id)).Nodup) (x : SessionRow) (hx : x ∈ l) :
    l.find? (fun r => r.id == x.id) = some x := by
  induction l with
  | nil => simp at hx
  | cons y ys ih =>
    rcases List.mem_cons.1 hx with h | h
    · subst h
      exact List.find?_cons_of_pos _ (by simp)
    · by_cases hy : y.id = x.id
      · exfalso
        have : x.id ∈ ys.map (fun s => s.id) := List.mem_map_of_mem _ h
        rw [List.map_cons] at hnd
        exact (List.nodup_cons.1 hnd).1 (hy ▸ this)
      · rw [List.find?_cons_of_neg _ (by simpa using hy)]
        exact ih (List.nodup_cons.1 (by rw [List.map_cons] at hnd; exact hnd)).2 h

/-- Induction workhorse for the expiry sweep: folding
`end_session_logic` over a list of still-active candidate rows with
distinct ids closes every one of them, counts them all, disturbs no
other session row, and evolves each listener row pointwise by
`stepsFn`. -/
theorem closeFold_spec (now : Int) (cs : List SessionRow) :
    ∀ (k : Nat) (dbA : DB),
    (dbA.sessions.map (fun s => s.id)).Nodup →
    (cs.map (fun s => s.id)).Nodup →
    (∀ c ∈ cs, dbA.sessions.find? (fun r => r.id == c.id) = some c) →
    (∀ c ∈ cs, c.is_active = true) →
    (closeFold now (k, dbA) cs).1 = k + cs.length ∧
    (closeFold now (k, dbA) cs).2.sessions.map (fun s => s.id)
        = dbA.sessions.map (fun s => s.id) ∧
    (∀ tid, tid ∉ cs.map (fun s => s.id) →
       (closeFold now (k, dbA) cs).2.sessions.find? (fun r => r.id == tid)
         = dbA.sessions.find? (fun r => r.id == tid)) ∧
    (∀ c ∈ cs, (closeFold now (k, dbA) cs).2.sessions.find? (fun r => r.id == c.id)
         = some { c with is_active := false, ended_at := some now }) ∧
    (closeFold now (k, dbA) cs).2.listeners
        = dbA.listeners.map (stepsFn (cs.map (fun s => s.id)) now) := by
  induction cs with
  | nil =>
    intro k dbA hnd hcnd hfind hact
    refine ⟨by simp [closeFold], rfl, fun tid _ => rfl, by simp, ?_⟩
    show dbA.listeners = dbA.listeners.map (stepsFn [] now)
    exact (List.map_id dbA.listeners).symm
  | cons c cs ih =>
    intro k dbA hnd hcnd hfind hact
    have hfc := hfind c (List.mem_cons_self c cs)
    have hac := hact c (List.mem_cons_self c cs)
    have hnorm := end_session_logic_normal dbA c.id now "auto" true c hfc (Or.inl hac)
    have hstep : closeFold now (k, dbA) (c :: cs)
        = closeFold now (k + 1,
            { dbA with sessions := closeSession dbA.sessions c.id now,
                       listeners := disconnectAll dbA.listeners c.id now,
                       events := dbA.events ++ closeEvents dbA c.id "auto" true }) cs := by
      show closeFold now
        (if (end_session_logic dbA c.id now "auto" true).1.isSome then k + 1 else k,
         (end_session_logic dbA c.id now "auto" true).2) cs = _
      rw [hnorm]
      simp
    have hnotin : c.id ∉ cs.map (fun s => s.id) :=
      (List.nodup_cons.1 (by simpa using hcnd)).1
    have hids1 : (closeSession dbA.sessions c.id now).map (fun s => s.id)
        = dbA.sessions.map (fun s => s.id) :=
      updateFirst_map _ _ _ _ (fun x => rfl)
    have hne : ∀ c' ∈ cs, (c'.id == c.id) = false := by
      intro c' hc'
      by_cases h : c'.id = c.id
      · exact absurd (h ▸ List.mem_map_of_mem _ hc') hnotin
      · simpa using h
    have hpersist1 : ∀ tid, (tid == c.id) = false →
        (closeSession dbA.sessions c.id now).find? (fun r => r.id == tid)
          = dbA.sessions.find? (fun r => r.id == tid) := by
      intro tid htid
      refine find?_updateFirst_of_disjoint _ _ _ _ ?_ (fun x => rfl)
      intro x hx
      have hx' : x.id = c.id := by simpa using hx
      have : ¬(tid = c.id) := by simpa using htid
      simp [hx']
      exact fun h => this h.symm
    obtain ⟨ihcount, ihids, ihpersist, ihclosed, ihlist⟩ :=
      ih (k + 1)
        { dbA with sessions := closeSession dbA.sessions c.id now,
                   listeners := disconnectAll dbA.listeners c.id now,
                   events := dbA.events ++ closeEvents dbA c.id "auto" true }
        (by simpa [hids1] using hnd)
        (List.nodup_cons.1 (by simpa using hcnd)).2
        (by
          intro c' hc'
          show (closeSession dbA.sessions c.id now).find? (fun r => r.id == c'.id)
            = some c'
          rw [hpersist1 c'.id (by simpa using hne c' hc')]
          exact hfind c' (List.mem_cons_of_mem _ hc'))
        (fun c' hc' => hact c' (List.mem_cons_of_mem _ hc'))
    refine ⟨?_, ?_, ?_, ?_, ?_⟩
    · rw [hstep, ihcount]
      simp [Nat.add_assoc, Nat.add_comm 1 cs.length]
    · rw [hstep, ihids]
      exact hids1
    · intro tid htid
      have htid1 : tid ∉ cs.map (fun s => s.id) := by
        intro hmem
        exact htid (by rw [List.map_cons]; exact List.mem_cons_of_mem _ hmem)
      have htidc : (tid == c.id) = false := by
        have : ¬(tid = c.id) := by
          intro h
          exact htid (by simp [h])
        simpa using this
      rw [hstep, ihpersist tid htid1]
      exact hpersist1 tid htidc
    · intro c'' hc''
      rcases List.mem_cons.1 hc'' with h | h
      · subst h
        rw [hstep, ihpersist c''.id hnotin]
        show (closeSession dbA.sessions c''.id now).find? (fun r => r.id == c''.id)
          = some { c'' with is_active := false, ended_at := some now }
        exact find_updateFirst_self _ _ _ _ hfc (by simp)
      · rw [hstep]
        exact ihclosed c'' h
    · rw [hstep, ihlist]
      show (dbA.listeners.map (stepOne c.id now)).map
          (stepsFn (cs.map (fun s => s.id)) now) = _
      rw [List.map_map]
      rfl

/-- C4: one invocation of `close_all_expired_sessions` closes every
session that was active and expired, sets its `ended_at`, disconnects
(with `left_at` set) every listener of such a session, and returns the
number of sessions it closed.  Hypotheses: the session primary keys are
distinct, and listener rows satisfy the data-model invariant that
`left_at` is set once disconnected. -/
theorem expiry_sweep_complete (db : DB) (now : Int)
    (hnd : (db.sessions.map (fun s => s.id)).Nodup)
    (hwf : ∀ l ∈ db.listeners, ListenerWF l) :
    (close_all_expired_sessions db now).1 = (expiredActive db now).length ∧
    ∀ s ∈ db.sessions, s.is_active = true → s.expires_at ≤ now →
      (∃ s', (close_all_expired_sessions db now).2.sessions.find?
          (fun r => r.id == s.id) = some s' ∧
        s'.is_active = false ∧ s'.ended_at ≠ none) ∧
      ∀ l ∈ (close_all_expired_sessions db now).2.listeners,
        l.session_id = s.id → l.is_connected = false ∧ l.left_at ≠ none := by
  have hcnd : ((expiredActive db now).map (fun s => s.id)).Nodup :=
    ((List.filter_sublist db.sessions).map _).nodup hnd
  have hfind : ∀ c ∈ expiredActive db now,
      db.sessions.find? (fun r => r.id == c.id) = some c := fun c hc =>
    find?_of_nodup_ids db.sessions hnd c (List.mem_of_mem_filter hc)
  have hact : ∀ c ∈ expiredActive db now, c.is_active = true := by
    intro c hc
    have h := List.of_mem_filter hc
    simp only [Bool.and_eq_true] at h
    exact h.1
  obtain ⟨hcount, _, _, hclosed, hlist⟩ :=
    closeFold_spec now (expiredActive db now) 0 db hnd hcnd hfind hact
  refine ⟨by simpa [close_all_expired_sessions] using hcount, ?_⟩
  intro s hs hsa hse
  have hmem : s ∈ expiredActive db now :=
    List.mem_filter.2 ⟨hs, by simp [hsa, hse]⟩
  refine ⟨⟨{ s with is_active := false, ended_at := some now },
    by simpa [close_all_expired_sessions] using hclosed s hmem, rfl, by simp⟩, ?_⟩
  intro l hl hls
  rw [show (close_all_expired_sessions db now).2.listeners
      = db.listeners.map (stepsFn ((expiredActive db now).map (fun s => s.id)) now)
    from hlist] at hl
  obtain ⟨l0, hl0, rfl⟩ := List.mem_map.1 hl
  have hsid : l0.session_id = s.id := by rw [← stepsFn_session_id _ now l0, hls]
  exact stepsFn_disconnects _ now l0
    (hsid ▸ List.mem_map_of_mem _ hmem) (hwf l0 hl0)

/-- C10: on a session with `is_active = false`, `end_session_logic` runs
its reduced "late sync" pass only when `ended_at` is also set; when
`ended_at` is still null — exactly the state `join_session_by_pin`'s
lazy-expiry guard leaves behind, shown in the last conjunct — it runs
the full normal transition, setting `ended_at` and disconnecting the
listeners. -/
theorem late_sync_vs_full_close (db : DB) (sid : Nat) (now : Int)
    (reason : String) (ul : Bool) (s : SessionRow)
    (h : findSessionById db sid = some s) (ha : s.is_active = false) :
    (s.ended_at = none →
       end_session_logic db sid now reason ul =
         (some { s with is_active := false, ended_at := some now },
          { db with sessions := closeSession db.sessions sid now,
                    listeners := disconnectAll db.listeners s.id now,
                    events := db.events ++ closeEvents db s.id reason ul })) ∧
    (s.ended_at ≠ none →
       end_session_logic db sid now reason ul =
         (some s,
          { db with listeners := disconnectAll db.listeners s.id now,
                    events := db.events ++
                      (if ul then listenerLeftEvents db s.id " (late sync)" else []) })) ∧
    (∀ pin dn lid, db.sessions.find? (fun r => r.pin == pin && r.is_active) = some s →
       s.expires_at ≤ now →
       (join_session_by_pin db pin dn lid now).1 = .error "session_expired" ∧
       (join_session_by_pin db pin dn lid now).2.sessions
         = updateFirst (fun r => r.pin == pin && r.is_active)
             (fun r => { r with is_active := false }) db.sessions) := by
  simp only [findSessionById] at h
  refine ⟨?_, ?_, ?_⟩
  · intro hend
    exact end_session_logic_normal db sid now reason ul s h (Or.inr hend)
  · intro hend
    exact end_session_logic_late db sid now reason ul s h ha
      (by cases he : s.ended_at with
          | none => exact absurd he hend
          | some t => simp)
  · intro pin dn lid hfind hexp
    constructor <;> simp [join_session_by_pin, hfind, hexp, lazyExpire]

/-! ## Concrete fixtures used by counterexamples and witnesses -/

def demoLicense : LicenseRow :=
  { id := 1, code := "TRIAL-10", duration_minutes := 240, max_listeners := 10,
    is_active := true, activated_at := some 0 }

def demoSession : SessionRow :=
  { id := 7, license_id := 1, pin := "ABC123", started_at := 60,
    ended_at := none, expires_at := 14400, max_listeners := 10, is_active := true }

def demoListener (i : Nat) (conn : Bool) : ListenerRow :=
  { id := i, session_id := 7, display_name := none, joined_at := 60,
    left_at := if conn then none else some 70, is_connected := conn }

/-- A session at capacity by row count, but with one listener already
disconnected: 9 connected listeners, 10 rows, cap 10. -/
def dbNineConnected : DB :=
  { licenses := [demoLicense], sessions := [demoSession],
    listeners := (List.range 9).map (fun i => demoListener i true)
      ++ [demoListener 9 false],
    events := [] }

/-- C3, counterexample: the session is active and unexpired, only 9 of
its 10 listener rows are connected and its cap is 10 — the spec's
connected-listener reading says a join must succeed — yet
`join_session_by_pin` returns `session_full` and inserts nothing,
because the source counts ALL listener rows of the session, not just
the connected ones. -/
theorem join_counts_all_rows_counterexample :
    demoSession.is_active = true ∧ (120 : Int) < demoSession.expires_at ∧
    findSessionById dbNineConnected 7 = some demoSession ∧
    connectedListeners dbNineConnected 7 = 9 ∧
    demoSession.max_listeners = 10 ∧
    join_session_by_pin dbNineConnected "ABC123" none 200 120
      = (.error "session_full", dbNineConnected) :=
  ⟨rfl, by decide, rfl, rfl, rfl, rfl⟩

/-- C3, amended: capacity is enforced against the TOTAL number of
listener rows ever inserted for the session (connected or not): a join
on an active, unexpired session fails with `session_full` without
mutation when that total has reached `max_listeners`, and succeeds,
inserting a new connected row, when the total is below the cap. -/
theorem join_capacity_total_rows (db : DB) (pin : String) (dn : Option String)
    (lid : Nat) (now : Int) (s : SessionRow)
    (hfind : db.sessions.find? (fun r => r.pin == pin && r.is_active) = some s)
    (hexp : now < s.expires_at) :
    (s.max_listeners ≤ (countedListeners db s.id : Int) →
       join_session_by_pin db pin dn lid now = (.error "session_full", db)) ∧
    ((countedListeners db s.id : Int) < s.max_listeners →
       join_session_by_pin db pin dn lid now
         = (.ok (freshListener s.id dn lid now),
            { db with listeners := db.listeners ++ [freshListener s.id dn lid now] }) ∧
       (freshListener s.id dn lid now).is_connected = true) := by
  constructor
  · intro hfull
    simp [join_session_by_pin, hfind, not_le.2 hexp, hfull]
  · intro hroom
    refine ⟨?_, rfl⟩
    simp [join_session_by_pin, hfind, not_le.2 hexp, not_le.2 hroom]

/-- Witness for the amended C3 statement: at the capacity boundary the
tenth row blocks the join even though only nine listeners are
connected; with nine rows the join would succeed.  Instantiated here on
the full side of the boundary. -/
theorem join_capacity_total_rows_witness :
    (dbNineConnected.sessions.find?
        (fun r => r.pin == "ABC123" && r.is_active) = some demoSession) ∧
    ((120 : Int) < demoSession.expires_at) ∧
    ((demoSession.max_listeners ≤ (countedListeners dbNineConnected demoSession.id : Int) →
       join_session_by_pin dbNineConnected "ABC123" none 200 120
         = (.error "session_full", dbNineConnected)) ∧
     ((countedListeners dbNineConnected demoSession.id : Int) < demoSession.max_listeners →
       join_session_by_pin dbNineConnected "ABC123" none 200 120
         = (.ok (freshListener demoSession.id none 200 120),
            { dbNineConnected with
                listeners := dbNineConnected.listeners
                  ++ [freshListener demoSession.id none 200 120] }) ∧
       (freshListener demoSession.id none 200 120).is_connected = true)) :=
  ⟨by decide, by decide,
   join_capacity_total_rows dbNineConnected "ABC123" none 200 120 demoSession
     (by decide) (by decide)⟩

/-- A license whose `duration_minutes` column holds the falsy value 0. -/
def zeroDurationLicense : LicenseRow :=
  { id := 2, code := "Z", duration_minutes := 0, max_listeners := 10,
    is_active := false, activated_at := none }

def dbZeroDuration : DB :=
  { licenses := [zeroDurationLicense], sessions := [], listeners := [], events := [] }

/-- C9, counterexample: a never-activated license with
`duration_minutes = 0` activates with `remaining = 240`, not
`remaining = duration_minutes = 0`, because the source replaces the
falsy duration by the fallback `240` (`or 240`). -/
theorem activate_duration_fallback_counterexample :
    zeroDurationLicense.activated_at = none ∧
    zeroDurationLicense.duration_minutes = 0 ∧
    (activate_license dbZeroDuration "Z" 0).1
      = .ok (activatedLicense zeroDurationLicense 0) 240 ∧
    (240 : Int) ≠ zeroDurationLicense.duration_minutes := by
  decide

/-- C9, amended: the `activate_license` contract, with the remaining
minutes computed from the effective duration (`duration_minutes`, with
the falsy value 0/null replaced by 240): unknown code ⇒
`license_not_found`; activated-and-inactive ⇒ `license_used`; first
activation sets `is_active`/`activated_at` and returns the effective
duration; a still-active license gets `remaining =
max(0, effective_duration - elapsed_minutes)` with no state change
(the model has no `updated_at` column). -/
theorem activate_license_contract (db : DB) (code : String) (now : Int) :
    (findLicenseByCode db code = none →
       activate_license db code now = (.notFound, db)) ∧
    (∀ lic, findLicenseByCode db code = some lic →
       (∀ t, lic.activated_at = some t → lic.is_active = false →
          activate_license db code now = (.used, db)) ∧
       (lic.activated_at = none →
          activate_license db code now
            = (.ok (activatedLicense lic now) (effDuration lic),
               { db with
                   licenses := upsertLicense db.licenses (activatedLicense lic now) })) ∧
       (∀ t, lic.activated_at = some t → lic.is_active = true →
          activate_license db code now
            = (.ok lic (max 0 (effDuration lic - elapsedMinutes now t)), db))) := by
  refine ⟨?_, ?_⟩
  · intro hnone
    simp [activate_license, hnone]
  · intro lic hfind
    refine ⟨?_, ?_, ?_⟩
    · intro t ht hact
      simp [activate_license, hfind, ht, hact]
    · intro ht
      simp [activate_license, hfind, ht]
    · intro t ht hact
      simp [activate_license, hfind, ht, hact]

/-- Witness for the amended C9 contract: the zero-duration license
activates fresh and gets the 240-minute fallback. -/
theorem activate_license_contract_witness :
    activate_license dbZeroDuration "Z" 0
      = (.ok (activatedLicense zeroDurationLicense 0) (effDuration zeroDurationLicense),
         { dbZeroDuration with
             licenses := upsertLicense dbZeroDuration.licenses
               (activatedLicense zeroDurationLicense 0) }) :=
  (((activate_license_contract dbZeroDuration "Z" 0).2 zeroDurationLicense
      (by decide)).2.1) (by decide)

instance (l : ListenerRow) : Decidable (ListenerWF l) := by
  unfold ListenerWF; infer_instance

def dbStartReady : DB :=
  { licenses := [demoLicense], sessions := [], listeners := [], events := [] }

/-- Witness for C2: the demo license starts a session successfully, the
committed state shows it deactivated with the session present, and any
restart is refused. -/
theorem start_session_one_license_one_tour_witness :
    ((start_session_for_license dbStartReady demoLicense none ["ABC123"] 7 60).1
       = .ok (freshSession demoLicense "ABC123" 7 60 0 10)) ∧
    (findLicenseById
        (start_session_for_license dbStartReady demoLicense none ["ABC123"] 7 60).2
        demoLicense.id = some { demoLicense with is_active := false } ∧
     freshSession demoLicense "ABC123" 7 60 0 10
       ∈ (start_session_for_license dbStartReady demoLicense none ["ABC123"] 7 60).2.sessions ∧
     ∀ lic2 req2 pins2 sid2 now2,
       findLicenseById
           (start_session_for_license dbStartReady demoLicense none ["ABC123"] 7 60).2
           demoLicense.id = some lic2 →
       start_session_for_license
           (start_session_for_license dbStartReady demoLicense none ["ABC123"] 7 60).2
           lic2 req2 pins2 sid2 now2
         = (.error "license_not_active",
            (start_session_for_license dbStartReady demoLicense none ["ABC123"] 7 60).2)) :=
  ⟨rfl, start_session_one_license_one_tour dbStartReady demoLicense none
    ["ABC123"] 7 60 (freshSession demoLicense "ABC123" 7 60 0 10) rfl⟩

def dbOneSession : DB :=
  { licenses := [demoLicense], sessions := [demoSession],
    listeners := [demoListener 100 true], events := [] }

/-- Witness for C1: ending the demo session twice succeeds both times,
`ended_at` is set by the first call and untouched by the second. -/
theorem end_session_idempotent_witness :
    (findSessionById dbOneSession 7).isSome ∧
    ((end_session dbOneSession 7 100).1 = true ∧
     (end_session (end_session dbOneSession 7 100).2 7 200).1 = true ∧
     ∃ s1, findSessionById (end_session dbOneSession 7 100).2 7 = some s1 ∧
       s1.ended_at.isSome ∧
       findSessionById (end_session (end_session dbOneSession 7 100).2 7 200).2 7
         = some s1) ∧
    (findSessionById dbOneSession 99 = none →
       end_session dbOneSession 99 100 = (false, dbOneSession)) :=
  ⟨by decide, (end_session_idempotent dbOneSession 7 100 200).2 (by decide),
   (end_session_idempotent dbOneSession 99 100 200).1⟩

def dbExpiredSession : DB :=
  { licenses := [demoLicense], sessions := [demoSession],
    listeners := [demoListener 100 true, demoListener 101 false], events := [] }

/-- Witness for C4: one sweep at `now = 20000` (the demo session expires
at 14400) closes the session, disconnects its listeners and reports one
closed session. -/
theorem expiry_sweep_complete_witness :
    (dbExpiredSession.sessions.map (fun s => s.id)).Nodup ∧
    (∀ l ∈ dbExpiredSession.listeners, ListenerWF l) ∧
    ((close_all_expired_sessions dbExpiredSession 20000).1
        = (expiredActive dbExpiredSession 20000).length ∧
     ∀ s ∈ dbExpiredSession.sessions, s.is_active = true → s.expires_at ≤ 20000 →
       (∃ s', (close_all_expired_sessions dbExpiredSession 20000).2.sessions.find?
           (fun r => r.id == s.id) = some s' ∧
         s'.is_active = false ∧ s'.ended_at ≠ none) ∧
       ∀ l ∈ (close_all_expired_sessions dbExpiredSession 20000).2.listeners,
         l.session_id = s.id → l.is_connected = false ∧ l.left_at ≠ none) :=
  ⟨by decide, by decide,
   expiry_sweep_complete dbExpiredSession 20000 (by decide) (by decide)⟩

/-- The state `join_session_by_pin`'s lazy-expiry guard leaves behind:
inactive but with `ended_at` still null. -/
def lazyExpiredSession : SessionRow := { demoSession with is_active := false }

def dbLazyExpired : DB :=
  { licenses := [demoLicense], sessions := [lazyExpiredSession],
    listeners := [demoListener 100 true], events := [] }

/-- Witness for C10: on the lazily-expired demo session (inactive,
`ended_at` null) `end_session_logic` runs the full normal transition. -/
theorem late_sync_vs_full_close_witness :
    (findSessionById dbLazyExpired 7 = some lazyExpiredSession) ∧
    lazyExpiredSession.is_active = false ∧
    ((lazyExpiredSession.ended_at = none →
       end_session_logic dbLazyExpired 7 300 "manual" false =
         (some { lazyExpiredSession with is_active := false, ended_at := some 300 },
          { dbLazyExpired with
              sessions := closeSession dbLazyExpired.sessions 7 300,
              listeners := disconnectAll dbLazyExpired.listeners lazyExpiredSession.id 300,
              events := dbLazyExpired.events ++
                closeEvents dbLazyExpired lazyExpiredSession.id "manual" false })) ∧
     (lazyExpiredSession.ended_at ≠ none →
       end_session_logic dbLazyExpired 7 300 "manual" false =
         (some lazyExpiredSession,
          { dbLazyExpired with
              listeners := disconnectAll dbLazyExpired.listeners lazyExpiredSession.id 300,
              events := dbLazyExpired.events ++
                (if false then
                   listenerLeftEvents dbLazyExpired lazyExpiredSession.id " (late sync)"
                 else []) })) ∧
     (∀ pin dn lid,
       dbLazyExpired.sessions.find? (fun r => r.pin == pin && r.is_active)
           = some lazyExpiredSession →
       lazyExpiredSession.expires_at ≤ 300 →
       (join_session_by_pin dbLazyExpired pin dn lid 300).1 = .error "session_expired" ∧
       (join_session_by_pin dbLazyExpired pin dn lid 300).2.sessions
         = updateFirst (fun r => r.pin == pin && r.is_active)
             (fun r => { r with is_active := false }) dbLazyExpired.sessions)) :=
  ⟨by decide, rfl,
   late_sync_vs_full_close dbLazyExpired 7 300 "manual" false lazyExpiredSession
     (by decide) rfl⟩

/-! ## SHA-256 (the behaviour of `hashlib.sha256`, FIPS 180-4) over byte
lists, with 32-bit words as `Nat` reduced mod `2^32` -/

def M32 : Nat := 4294967296

def add32 (a b : Nat) : Nat := (a + b) % M32

def rotr32 (n x : Nat) : Nat := ((x >>> n) ||| (x <<< (32 - n))) % M32

def ch32 (x y z : Nat) : Nat := (x &&& y) ^^^ ((x ^^^ (M32 - 1)) &&& z)

def maj32 (x y z : Nat) : Nat := (x &&& y) ^^^ (x &&& z) ^^^ (y &&& z)

def bigSigma0 (x : Nat) : Nat := rotr32 2 x ^^^ rotr32 13 x ^^^ rotr32 22 x

def bigSigma1 (x : Nat) : Nat := rotr32 6 x ^^^ rotr32 11 x ^^^ rotr32 25 x

def smallSigma0 (x : Nat) : Nat := rotr32 7 x ^^^ rotr32 18 x ^^^ (x >>> 3)

def smallSigma1 (x : Nat) : Nat := rotr32 17 x ^^^ rotr32 19 x ^^^ (x >>> 10)

/-- The 64 SHA-256 round constants, in decimal. -/
def K256 : List Nat :=
  [1116352408, 1899447441, 3049323471, 3921009573, 961987163,
   1508970993, 2453635748, 2870763221, 3624381080, 310598401,
   607225278, 1426881987, 1925078388, 2162078206, 2614888103,
   3248222580, 3835390401, 4022224774, 264347078, 604807628,
   770255983, 1249150122, 1555081692, 1996064986, 2554220882,
   2821834349, 2952996808, 3210313671, 3336571891, 3584528711,
   113926993, 338241895, 666307205, 773529912, 1294757372,
   1396182291, 1695183700, 1986661051, 2177026350, 2456956037,
   2730485921, 2820302411, 3259730800, 3345764771, 3516065817,
   3600352804, 4094571909, 275423344, 430227734, 506948616,
   659060556, 883997877, 958139571, 1322822218, 1537002063,
   1747873779, 1955562222, 2024104815, 2227730452, 2361852424,
   2428436474, 2756734187, 3204031479, 3329325298]

/-- The eight working registers of the compression function. -/
structure Hash8 where
  a : Nat
  b : Nat
  c : Nat
  d : Nat
  e : Nat
  f : Nat
  g : Nat
  h : Nat

/-- The SHA-256 initial hash value, in decimal. -/
def initH : Hash8 :=
  ⟨1779033703, 3144134277, 1013904242, 2773480762,
   1359893119, 2600822924, 528734635, 1541459225⟩

/-- One round of the SHA-256 compression function. -/
def shaRound (s : Hash8) (kt wt : Nat) : Hash8 :=
  let t1 := add32 s.h (add32 (bigSigma1 s.e) (add32 (ch32 s.e s.f s.g) (add32 kt wt)))
  let t2 := add32 (bigSigma0 s.a) (maj32 s.a s.b s.c)
  ⟨add32 t1 t2, s.a, s.b, s.c, add32 s.d t1, s.e, s.f, s.g⟩

/-- Extend a 16-word block to the 64-word message schedule
(48 extension steps). -/
def extendSchedule : List Nat → Nat → List Nat
  | w, 0 => w
  | w, n + 1 =>
    extendSchedule
      (w ++ [add32 (add32 (smallSigma1 (w.getD (w.length - 2) 0))
                          (w.getD (w.length - 7) 0))
                   (add32 (smallSigma0 (w.getD (w.length - 15) 0))
                          (w.getD (w.length - 16) 0))])
      n

/-- Big-endian 32-bit words from bytes (length a multiple of 4). -/
def wordsOfBytes : List Nat → List Nat
  | b0 :: b1 :: b2 :: b3 :: rest =>
    (((b0 * 256 + b1) * 256 + b2) * 256 + b3) :: wordsOfBytes rest
  | _ => []

/-- Compress one 64-byte block into the running hash state. -/
def compressBlock (H : Hash8) (block : List Nat) : Hash8 :=
  let s := ((K256.zip (extendSchedule (wordsOfBytes block) 48)).foldl
    (fun st p => shaRound st p.1 p.2) H)
  ⟨add32 H.a s.a, add32 H.b s.b, add32 H.c s.c, add32 H.d s.d,
   add32 H.e s.e, add32 H.f s.f, add32 H.g s.g, add32 H.h s.h⟩

/-- Big-endian bytes of a 64-bit length value. -/
def be64 (n : Nat) : List Nat :=
  [(n >>> 56) % 256, (n >>> 48) % 256, (n >>> 40) % 256, (n >>> 32) % 256,
   (n >>> 24) % 256, (n >>> 16) % 256, (n >>> 8) % 256, n % 256]

/-- SHA-256 padding: one `0x80` byte, zeros to 56 mod 64, then the
bit length, big-endian, in 8 bytes. -/
def padMessage (msg : List Nat) : List Nat :=
  msg ++ [0x80] ++ List.replicate ((119 - msg.length % 64) % 64) 0
    ++ be64 ((8 * msg.length) % 18446744073709551616)

/-- Split a byte list into 64-byte blocks. -/
def toBlocks (l : List Nat) : List (List Nat) :=
  if h : l = [] then []
  else
    have : (List.drop 64 l).length < l.length := by
      rcases l with _ | ⟨x, xs⟩
      · exact absurd rfl h
      · simp [List.length_drop]
        omega
    l.take 64 :: toBlocks (l.drop 64)
  termination_by l.length

/-- Big-endian bytes of one 32-bit word. -/
def wordBytes (w : Nat) : List Nat :=
  [(w >>> 24) % 256, (w >>> 16) % 256, (w >>> 8) % 256, w % 256]

def hashBytes (s : Hash8) : List Nat :=
  wordBytes s.a ++ wordBytes s.b ++ wordBytes s.c ++ wordBytes s.d ++
    wordBytes s.e ++ wordBytes s.f ++ wordBytes s.g ++ wordBytes s.h

/-- SHA-256 of a byte list, as 32 bytes. -/
def sha256 (msg : List Nat) : List Nat :=
  hashBytes ((toBlocks (padMessage msg)).foldl compressBlock initH)

/-! ## HMAC (the behaviour of `hmac.new(key, msg, sha256).hexdigest()`) -/

/-- HMAC-SHA256 key preparation: hash keys longer than the 64-byte
block, then zero-pad to the block size. -/
def hmacKey (key : List Nat) : List Nat :=
  let k := if 64 < key.length then sha256 key else key
  k ++ List.replicate (64 - k.length) 0

/-- HMAC-SHA256 digest bytes. -/
def hmacSha256 (key msg : List Nat) : List Nat :=
  sha256 ((hmacKey key).map (fun b => b ^^^ 0x5c) ++
    sha256 ((hmacKey key).map (fun b => b ^^^ 0x36) ++ msg))

def hexDigitChar (n : Nat) : Char :=
  if n < 10 then Char.ofNat (48 + n) else Char.ofNat (87 + n)

def hexChars : List Nat → List Char
  | [] => []
  | b :: rest => hexDigitChar (b / 16) :: hexDigitChar (b % 16) :: hexChars rest

def hexOfBytes (bs : List Nat) : String := String.mk (hexChars bs)

/-- The string a Python `str` is encoded to by `.encode("utf-8")`,
restricted to the code points below 128 used by timestamps and header
names (identity on ASCII). -/
def encodeAscii (s : String) : List Nat := s.data.map Char.toNat

/-- Embeds `_hmac_digest(secret, message, algo="sha256")` of
app/core/webhook.py and the identical recomputation in
app/core/webhook_verify.py: `hmac.new(secret.encode(), message,
hashlib.sha256).hexdigest()`. -/
def hmacHexDigest (secret : String) (message : List Nat) : String :=
  hexOfBytes (hmacSha256 (encodeAscii secret) message)

/-! ## Python `int(...)` parsing and the webhook verifier
(app/core/webhook_verify.py) -/

/-- The ASCII whitespace Python `int()` strips from its argument. -/
def pyWhitespace (c : Char) : Bool :=
  c == ' ' || c == '\t' || c == '\n' || c == '\r' || c == '\x0b' || c == '\x0c'

def isDigitC (c : Char) : Bool := 48 ≤ c.toNat && c.toNat ≤ 57

def digitVal (c : Char) : Nat := c.toNat - 48

def trimWs (cs : List Char) : List Char :=
  ((cs.dropWhile pyWhitespace).reverse.dropWhile pyWhitespace).reverse

/-- Digit tail of a Python integer literal: digits with single
underscores allowed between digits only. -/
def parseDigitsGo (acc : Nat) : List Char → Option Nat
  | [] => some acc
  | c :: rest =>
    if c = '_' then
      match rest with
      | [] => none
      | c2 :: rest2 =>
        if isDigitC c2 then parseDigitsGo (acc * 10 + digitVal c2) rest2 else none
    else if isDigitC c then parseDigitsGo (acc * 10 + digitVal c) rest
    else none

/-- The behaviour of Python `int(s)` on a string: strip whitespace,
optional sign, decimal digits with optional single underscores;
`none` models the raised `ValueError`. -/
def parseIntPy (s : String) : Option Int :=
  match trimWs s.data with
  | [] => none
  | '+' :: c :: cs =>
    if isDigitC c then (parseDigitsGo (digitVal c) cs).map Int.ofNat else none
  | '-' :: c :: cs =>
    if isDigitC c then (parseDigitsGo (digitVal c) cs).map (fun n => -(n : Int)) else none
  | c :: cs =>
    if isDigitC c then (parseDigitsGo (digitVal c) cs).map Int.ofNat else none

/-- Python `headers.get(k)` on a dict, modelled as first-match lookup in
an association list. -/
def hget (hs : List (String × String)) (k : String) : Option String :=
  (hs.find? (fun p => p.1 == k)).map (fun p => p.2)

/-- The functional behaviour of `hmac.compare_digest` on strings
(constant-time string equality). -/
def compareDigest (a b : String) : Bool := a == b

/-- Models `hasattr(hashlib, algo)` restricted to the one algorithm this
embedding implements (the source's default). -/
def hashlibHas (algo : String) : Bool := algo == "sha256"

def DEFAULT_HEADER_SIG : String := "X-Webhook-Signature"

def DEFAULT_HEADER_TS : String := "X-Webhook-Timestamp"

def DEFAULT_HEADER_EVT : String := "X-Webhook-Event"

def DEFAULT_MAX_AGE_S : Int := 300

/-- Embeds `verify_hmac_signature(body_bytes, headers, secret,
header_sig, header_ts, algo, max_age_seconds)`; `now` is the value of
`int(time.time())`.  Returns `(ok, event_type, error)`.  The digest is
recomputed over `f"{ts}.".encode() + body_bytes` with the configured
algorithm (only `sha256`, the default, is modelled; any other name
fails the `hasattr` guard first). -/
def verify_hmac_signature (body : List Nat) (headers : List (String × String))
    (secret : String) (headerSig headerTs algo : String) (maxAge : Int)
    (now : Int) : Bool × Option String × Option String :=
  match hget headers headerTs with
  | none => (false, none, some ("missing " ++ headerTs))
  | some ts =>
    if ts = "" then (false, none, some ("missing " ++ headerTs))
    else
      match parseIntPy ts with
      | none => (false, none, some "invalid timestamp")
      | some tsInt =>
        if maxAge < |now - tsInt| then (false, none, some "stale or future timestamp")
        else
          match hget headers headerSig with
          | none => (false, none, some ("missing " ++ headerSig))
          | some sig =>
            if sig = "" then (false, none, some ("missing " ++ headerSig))
            else if !hashlibHas algo then
              (false, none, some ("unsupported algo " ++ algo))
            else if compareDigest sig
                (hmacHexDigest secret (encodeAscii (ts ++ ".") ++ body)) then
              (true, hget headers DEFAULT_HEADER_EVT, none)
            else (false, none, some "signature mismatch")

/-- The headers `post_webhook` sends when an HMAC secret is configured
with the default header name and algorithm: content type, event type,
anti-replay timestamp, and the signature of `f"{ts}.".encode() + body`. -/
def signedHeaders (secret et ts : String) (body : List Nat) :
    List (String × String) :=
  [("Content-Type", "application/json"),
   ("X-Webhook-Event", et),
   ("X-Webhook-Timestamp", ts),
   ("X-Webhook-Signature", hmacHexDigest secret (encodeAscii (ts ++ ".") ++ body))]

/-! ## Webhook lemmas -/

theorem sha256_length (m : List Nat) : (sha256 m).length = 32 := rfl

theorem sha256_ne_nil (m : List Nat) : sha256 m ≠ [] := by
  intro h
  have h32 := sha256_length m
  rw [h] at h32
  simp at h32

theorem hmacSha256_eq_sha256 (key msg : List Nat) :
    hmacSha256 key msg
      = sha256 ((hmacKey key).map (fun b => b ^^^ 0x5c) ++
          sha256 ((hmacKey key).map (fun b => b ^^^ 0x36) ++ msg)) := rfl

theorem hmacHexDigest_ne_empty (secret : String) (msg : List Nat) :
    hmacHexDigest secret msg ≠ "" := by
  unfold hmacHexDigest hexOfBytes
  rcases hb : hmacSha256 (encodeAscii secret) msg with _ | ⟨b, bs⟩
  · rw [hmacSha256_eq_sha256] at hb
    exact absurd hb (sha256_ne_nil _)
  · intro h
    have h2 := congrArg String.data h
    simp [hexChars] at h2

theorem hget_signed_ts (secret et ts : String) (body : List Nat) :
    hget (signedHeaders secret et ts body) DEFAULT_HEADER_TS = some ts := rfl

theorem hget_signed_sig (secret et ts : String) (body : List Nat) :
    hget (signedHeaders secret et ts body) DEFAULT_HEADER_SIG
      = some (hmacHexDigest secret (encodeAscii (ts ++ ".") ++ body)) := rfl

theorem hget_signed_evt (secret et ts : String) (body : List Nat) :
    hget (signedHeaders secret et ts body) DEFAULT_HEADER_EVT = some et := rfl

theorem parseIntPy_empty : parseIntPy "" = none := rfl

/-- A request whose recomputed digest matches the signature header
passes verification (with a parsable timestamp inside the window). -/
theorem verify_of_digest_eq (secret et ts : String) (tsInt now : Int)
    (body body' : List Nat)
    (hts : parseIntPy ts = some tsInt) (hage : |now - tsInt| ≤ DEFAULT_MAX_AGE_S)
    (hd : hmacHexDigest secret (encodeAscii (ts ++ ".") ++ body')
        = hmacHexDigest secret (encodeAscii (ts ++ ".") ++ body)) :
    verify_hmac_signature body' (signedHeaders secret et ts body) secret
        DEFAULT_HEADER_SIG DEFAULT_HEADER_TS "sha256" DEFAULT_MAX_AGE_S now
      = (true, some et, none) := by
  have hne : ts ≠ "" := by
    intro h
    rw [h, parseIntPy_empty] at hts
    exact Option.noConfusion hts
  unfold verify_hmac_signature
  rw [hget_signed_ts]
  simp only [if_neg hne, hts, if_neg (not_lt.2 hage), hget_signed_sig,
    if_neg (hmacHexDigest_ne_empty secret _), hd]
  simp [compareDigest, hashlibHas, hget_signed_evt]

/-- A request whose recomputed digest differs from the signature header
fails verification with a signature mismatch. -/
theorem verify_of_digest_ne (secret et ts : String) (tsInt now : Int)
    (body body' : List Nat)
    (hts : parseIntPy ts = some tsInt) (hage : |now - tsInt| ≤ DEFAULT_MAX_AGE_S)
    (hd : hmacHexDigest secret (encodeAscii (ts ++ ".") ++ body')
        ≠ hmacHexDigest secret (encodeAscii (ts ++ ".") ++ body)) :
    verify_hmac_signature body' (signedHeaders secret et ts body) secret
        DEFAULT_HEADER_SIG DEFAULT_HEADER_TS "sha256" DEFAULT_MAX_AGE_S now
      = (false, none, some "signature mismatch") := by
  have hne : ts ≠ "" := by
    intro h
    rw [h, parseIntPy_empty] at hts
    exact Option.noConfusion hts
  unfold verify_hmac_signature
  rw [hget_signed_ts]
  simp only [if_neg hne, hts, if_neg (not_lt.2 hage), hget_signed_sig,
    if_neg (hmacHexDigest_ne_empty secret _)]
  simp [compareDigest, hashlibHas]
  intro h
  exact absurd h.symm hd

theorem wordBytes_lt (w : Nat) : ∀ b ∈ wordBytes w, b < 256 := by
  intro b hb
  simp [wordBytes] at hb
  rcases hb with rfl | rfl | rfl | rfl <;> exact Nat.mod_lt _ (by norm_num)

theorem sha256_lt (m : List Nat) : ∀ b ∈ sha256 m, b < 256 := by
  intro b hb
  unfold sha256 hashBytes at hb
  simp only [List.mem_append] at hb
  rcases hb with ((((((h | h) | h) | h) | h) | h) | h) | h <;>
    exact wordBytes_lt _ b h

/-- The HMAC digest of the k-th probe body, packed as a vector of bytes:
the pigeonhole target. -/
def digestVec (secret ts : String) (k : Nat) : Mathlib.Vector (Fin 256) 32 :=
  ⟨(hmacSha256 (encodeAscii secret) (encodeAscii (ts ++ ".") ++ List.replicate k 0)).map
      (fun b => ⟨b % 256, Nat.mod_lt _ (by norm_num)⟩),
   by rw [List.length_map, hmacSha256_eq_sha256, sha256_length]⟩

/-- Pigeonhole: infinitely many bodies map into the finite space of
32-byte digests, so some two distinct bodies share their HMAC hex
digest. -/
theorem digest_collision (secret ts : String) :
    ∃ m n : Nat, m ≠ n ∧
      hmacHexDigest secret (encodeAscii (ts ++ ".") ++ List.replicate m 0)
        = hmacHexDigest secret (encodeAscii (ts ++ ".") ++ List.replicate n 0) := by
  obtain ⟨m, n, hmn, heq⟩ := Finite.exists_ne_map_eq_of_infinite (digestVec secret ts)
  refine ⟨m, n, hmn, ?_⟩
  have hmod : ∀ (msg : List Nat),
      (hmacSha256 (encodeAscii secret) msg).map (fun b => b % 256)
        = hmacSha256 (encodeAscii secret) msg := by
    intro msg
    have : ∀ b ∈ hmacSha256 (encodeAscii secret) msg, b % 256 = b := by
      intro b hb
      rw [hmacSha256_eq_sha256] at hb
      exact Nat.mod_eq_of_lt (sha256_lt _ b hb)
    calc (hmacSha256 (encodeAscii secret) msg).map (fun b => b % 256)
        = (hmacSha256 (encodeAscii secret) msg).map id :=
          List.map_congr_left this
      _ = hmacSha256 (encodeAscii secret) msg := List.map_id _
  have hl := congrArg (fun v : Mathlib.Vector (Fin 256) 32 =>
    v.1.map (fun x : Fin 256 => (x.1 : Nat))) heq
  simp only [digestVec, List.map_map] at hl
  have hbytes : hmacSha256 (encodeAscii secret)
        (encodeAscii (ts ++ ".") ++ List.replicate m 0)
      = hmacSha256 (encodeAscii secret)
        (encodeAscii (ts ++ ".") ++ List.replicate n 0) := by
    have hm := hmod (encodeAscii (ts ++ ".") ++ List.replicate m 0)
    have hn := hmod (encodeAscii (ts ++ ".") ++ List.replicate n 0)
    rw [← hm, ← hn]
    exact hl
  unfold hmacHexDigest
  rw [hbytes]

/-- The spec's tamper-detection sentence, formalised as stated: a signed
request verifies, and EVERY body differing from the signed one fails
verification. -/
def SpecTamperClaim : Prop :=
  ∀ (secret et ts : String) (tsInt now : Int) (body : List Nat),
    parseIntPy ts = some tsInt → |now - tsInt| ≤ DEFAULT_MAX_AGE_S →
    (verify_hmac_signature body (signedHeaders secret et ts body) secret
        DEFAULT_HEADER_SIG DEFAULT_HEADER_TS "sha256" DEFAULT_MAX_AGE_S now).1
      = true ∧
    ∀ body', body' ≠ body →
      (verify_hmac_signature body' (signedHeaders secret et ts body) secret
          DEFAULT_HEADER_SIG DEFAULT_HEADER_TS "sha256" DEFAULT_MAX_AGE_S now).1
        = false

/-- C6, counterexample: the claim as stated is false — by pigeonhole
two distinct bodies share one HMAC-SHA256 digest, and the verifier
accepts the colliding body under the original signature. -/
theorem hmac_tamper_claim_counterexample : ¬ SpecTamperClaim := by
  intro hc
  obtain ⟨m, n, hmn, heq⟩ := digest_collision "s" "0"
  obtain ⟨-, hfail⟩ := hc "s" "e" "0" 0 0 (List.replicate m 0) rfl (by decide)
  have hne : List.replicate n 0 ≠ List.replicate m 0 := by
    intro h
    have hlen := congrArg List.length h
    simp at hlen
    exact hmn hlen.symm
  have hf := hfail (List.replicate n 0) hne
  have hs := verify_of_digest_eq "s" "e" "0" 0 0
    (List.replicate m 0) (List.replicate n 0) rfl (by decide) heq.symm
  rw [hs] at hf
  simp at hf

/-- C6, amended: signing then verifying the same secret, timestamp and
body always succeeds; and verifying the original signature against a
body whose HMAC digest DIFFERS from the signed body's digest always
fails with a signature mismatch (digest inequality is the most the
code can guarantee: SHA-256 collisions exist by pigeonhole, see the
counterexample). -/
theorem hmac_round_trip_and_mismatch (secret et ts : String) (tsInt now : Int)
    (body : List Nat)
    (hts : parseIntPy ts = some tsInt) (hage : |now - tsInt| ≤ DEFAULT_MAX_AGE_S) :
    verify_hmac_signature body (signedHeaders secret et ts body) secret
        DEFAULT_HEADER_SIG DEFAULT_HEADER_TS "sha256" DEFAULT_MAX_AGE_S now
      = (true, some et, none) ∧
    ∀ body', hmacHexDigest secret (encodeAscii (ts ++ ".") ++ body')
        ≠ hmacHexDigest secret (encodeAscii (ts ++ ".") ++ body) →
      verify_hmac_signature body' (signedHeaders secret et ts body) secret
          DEFAULT_HEADER_SIG DEFAULT_HEADER_TS "sha256" DEFAULT_MAX_AGE_S now
        = (false, none, some "signature mismatch") :=
  ⟨verify_of_digest_eq secret et ts tsInt now body body hts hage rfl,
   fun body' hd => verify_of_digest_ne secret et ts tsInt now body body' hts hage hd⟩

/-- Witness for the amended C6 statement at secret `"s"`, timestamp
`"100"`, body `[97]`, current time 150. -/
theorem hmac_round_trip_and_mismatch_witness :
    parseIntPy "100" = some 100 ∧ |(150 : Int) - 100| ≤ DEFAULT_MAX_AGE_S ∧
    (verify_hmac_signature [97] (signedHeaders "s" "evt" "100" [97]) "s"
        DEFAULT_HEADER_SIG DEFAULT_HEADER_TS "sha256" DEFAULT_MAX_AGE_S 150
      = (true, some "evt", none) ∧
     ∀ body', hmacHexDigest "s" (encodeAscii ("100" ++ ".") ++ body')
         ≠ hmacHexDigest "s" (encodeAscii ("100" ++ ".") ++ [97]) →
       verify_hmac_signature body' (signedHeaders "s" "evt" "100" [97]) "s"
           DEFAULT_HEADER_SIG DEFAULT_HEADER_TS "sha256" DEFAULT_MAX_AGE_S 150
         = (false, none, some "signature mismatch")) :=
  ⟨rfl, by decide,
   hmac_round_trip_and_mismatch "s" "evt" "100" 100 150 [97] rfl (by decide)⟩

/-- C7: the verifier rejects whenever the timestamp header is missing,
empty, non-numeric, or outside the max-age window — for EVERY signature
header value, including the correct HMAC; the timestamp guards run
before the signature is even read. -/
theorem anti_replay_rejects (body : List Nat) (headers : List (String × String))
    (secret headerSig algo : String) (maxAge now : Int)
    (h : hget headers DEFAULT_HEADER_TS = none ∨
         hget headers DEFAULT_HEADER_TS = some "" ∨
         (∃ ts, hget headers DEFAULT_HEADER_TS = some ts ∧ parseIntPy ts = none) ∨
         (∃ ts t, hget headers DEFAULT_HEADER_TS = some ts ∧
            parseIntPy ts = some t ∧ maxAge < |now - t|)) :
    (verify_hmac_signature body headers secret headerSig DEFAULT_HEADER_TS algo
        maxAge now).1 = false := by
  unfold verify_hmac_signature
  rcases h with h | h | ⟨ts, h1, h2⟩ | ⟨ts, t, h1, h2, h3⟩
  · rw [h]
  · rw [h]
    simp
  · simp only [h1]
    by_cases he : ts = ""
    · simp [he]
    · simp [he, h2]
  · have hne : ts ≠ "" := by
      intro hcon
      rw [hcon, parseIntPy_empty] at h2
      exact Option.noConfusion h2
    simp only [h1]
    rw [if_neg hne]
    simp only [h2]
    rw [if_pos h3]

/-- Witness for C7: a correctly signed request whose timestamp (0) is
far outside the window at `now = 10000` is rejected. -/
theorem anti_replay_rejects_witness :
    (∃ ts t, hget (signedHeaders "s" "evt" "0" [97]) DEFAULT_HEADER_TS = some ts ∧
       parseIntPy ts = some t ∧ DEFAULT_MAX_AGE_S < |(10000 : Int) - t|) ∧
    (verify_hmac_signature [97] (signedHeaders "s" "evt" "0" [97]) "s"
        DEFAULT_HEADER_SIG DEFAULT_HEADER_TS "sha256" DEFAULT_MAX_AGE_S 10000).1
      = false :=
  ⟨⟨"0", 0, rfl, rfl, by decide⟩,
   anti_replay_rejects [97] (signedHeaders "s" "evt" "0" [97]) "s"
     DEFAULT_HEADER_SIG "sha256" DEFAULT_MAX_AGE_S 10000
     (Or.inr (Or.inr (Or.inr ⟨"0", 0, rfl, rfl, by decide⟩)))⟩

/-! ## Event outbox (app/services/event_bus.py, app/schemas/event.py,
app/models/event_log.py) -/

/-- JSON-style values of an event payload dict. -/
inductive JValue
  | jstr (s : String)
  | jint (n : Int)
  | jbool (b : Bool)
  | jnull
  deriving Repr, DecidableEq

/-- A payload dict: association list, first match wins on lookup. -/
abbrev Payload := List (String × JValue)

def pget (p : Payload) (k : String) : Option JValue :=
  (p.find? (fun e => e.1 == k)).map (fun e => e.2)

/-- Python dict assignment `d[k] = v`: replace the key if present,
append otherwise. -/
def setKey : Payload → String → JValue → Payload
  | [], k, v => [(k, v)]
  | e :: rest, k, v => if e.1 == k then (k, v) :: rest else e :: setKey rest k v

def isHexC (c : Char) : Bool :=
  isDigitC c || (97 ≤ c.toNat && c.toNat ≤ 102) || (65 ≤ c.toNat && c.toNat ≤ 70)

/-- Split a character list at `'-'` (the behaviour of
`s.split("-")`). -/
def splitOnDash : List Char → List (List Char)
  | [] => [[]]
  | c :: rest =>
    if c = '-' then [] :: splitOnDash rest
    else
      match splitOnDash rest with
      | g :: gs => (c :: g) :: gs
      | [] => [[c]]

/-- Pydantic `UUID4` validation of a string, in the canonical hyphenated
form: 8-4-4-4-12 hex digits, version nibble `4`, RFC-4122 variant. -/
def isUUID4 (s : String) : Bool :=
  match splitOnDash s.data with
  | [a, b, c, d, e] =>
    a.length == 8 && b.length == 4 && c.length == 4 && d.length == 4 &&
    e.length == 12 &&
    (a ++ b ++ c ++ d ++ e).all isHexC &&
    c.headD 'x' == '4' &&
    (d.headD 'x' == '8' || d.headD 'x' == '9' ||
     d.headD 'x' == 'a' || d.headD 'x' == 'b' ||
     d.headD 'x' == 'A' || d.headD 'x' == 'B')
  | _ => false

/-- Structural check standing in for pydantic's lax `datetime`
validation: a unix number, or a string opening with an ISO
`YYYY-MM-DD` date. -/
def isIsoDatetime (s : String) : Bool :=
  match s.data with
  | y1 :: y2 :: y3 :: y4 :: '-' :: m1 :: m2 :: '-' :: d1 :: d2 :: rest =>
    [y1, y2, y3, y4, m1, m2, d1, d2].all isDigitC &&
    (rest.isEmpty || rest.headD ' ' == 'T' || rest.headD ' ' == ' ')
  | _ => false

def isDatetimeJ (v : JValue) : Bool :=
  match v with
  | .jint _ => true
  | .jstr s => isIsoDatetime s
  | _ => false

def isUUIDField (p : Payload) (k : String) : Bool :=
  match pget p k with
  | some (.jstr u) => isUUID4 u
  | _ => false

def isStrField (p : Payload) (k : String) : Bool :=
  match pget p k with
  | some (.jstr _) => true
  | _ => false

/-- The `BaseEvent` fields: `id : UUID4`, the `type` literal, and
`created_at : datetime` (extra keys are ignored, as pydantic does). -/
def validBase (p : Payload) (t : String) : Bool :=
  isUUIDField p "id" &&
  (pget p "type" == some (.jstr t)) &&
  (match pget p "created_at" with
   | some v => isDatetimeJ v
   | none => false)

def validSessionStarted (p : Payload) : Bool :=
  validBase p "session_started" && isUUIDField p "session_id" &&
  (match pget p "pin" with
   | some (.jstr s) => s.length == 6
   | _ => false)

def validListenerJoined (p : Payload) : Bool :=
  validBase p "listener_joined" && isUUIDField p "session_id" &&
    isUUIDField p "listener_id"

/-- `SessionEnded`: `session_id : UUID4` and
`duration_seconds : int` with `ge=0`. -/
def validSessionEnded (p : Payload) : Bool :=
  validBase p "session_ended" && isUUIDField p "session_id" &&
  (match pget p "duration_seconds" with
   | some (.jint n) => 0 ≤ n
   | _ => false)

def validDeliverySent (p : Payload) : Bool :=
  validBase p "delivery_sent" && isUUIDField p "event_log_id" &&
    isStrField p "target_url"

def validDeliveryFailed (p : Payload) : Bool :=
  validBase p "delivery_failed" && isUUIDField p "event_log_id" &&
    isStrField p "target_url" && isStrField p "reason"

/-- Embeds `validate_event_payload(payload)` of app/schemas/event.py:
look the schema up by `payload["type"]` in `EVENT_SCHEMAS`, raise
(`error`) for unknown types, then validate against the schema. -/
def validate_event_payload (p : Payload) : Except String Unit :=
  match pget p "type" with
  | some (.jstr t) =>
    if t = "session_started" then
      if validSessionStarted p then .ok () else .error "validation error"
    else if t = "listener_joined" then
      if validListenerJoined p then .ok () else .error "validation error"
    else if t = "session_ended" then
      if validSessionEnded p then .ok () else .error "validation error"
    else if t = "delivery_sent" then
      if validDeliverySent p then .ok () else .error "validation error"
    else if t = "delivery_failed" then
      if validDeliveryFailed p then .ok () else .error "validation error"
    else .error ("Unsupported event type: " ++ t)
  | _ => .error "Unsupported event type"

/-- The `EventStatus` enum EXACTLY as declared in
app/models/event_log.py: members `received`, `sent`, `failed` — there
is NO `queued` member, although migration 0006 declares the database
enum as `queued/sent/failed` and the event bus expects it. -/
inductive EventStatus
  | received
  | sent
  | failed
  deriving Repr, DecidableEq

/-- Python attribute lookup `EventStatus.<name>` on that enum:
`none` models the raised `AttributeError`. -/
def eventStatusMember : String → Option EventStatus
  | "received" => some .received
  | "sent" => some .sent
  | "failed" => some .failed
  | _ => none

/-- The outbox row `queue_event` tries to build.  (The SQLAlchemy model
in app/models/event_log.py does not even have an `event_type` column —
a second error on the same constructor call — but the attribute lookup
`EventStatus.queued` fails first under Python evaluation order.) -/
structure EventLogRow where
  event_type : String
  payload : Payload
  status : EventStatus
  deriving Repr, DecidableEq

/-- A raised Python exception. -/
inductive PyErr
  | valueError (msg : String)
  | attributeError (msg : String)
  deriving Repr, DecidableEq

/-- Embeds `queue_event(db, background_tasks, event_type, payload)`:
reject empty/typeless inputs, force `payload["type"] = event_type`,
validate strictly, then build the row with `status=EventStatus.queued`
and commit it.  The attribute access `EventStatus.queued` is evaluated
before the constructor call. -/
def queue_event (logs : List EventLogRow) (event_type : String)
    (payload : Option Payload) : Except PyErr EventLogRow × List EventLogRow :=
  if event_type = "" then
    (.error (.valueError "event_type deve essere una stringa non vuota"), logs)
  else
    match payload with
    | none => (.error (.valueError "payload deve essere un dict"), logs)
    | some p =>
      match validate_event_payload (setKey p "type" (.jstr event_type)) with
      | .error _ =>
        (.error (.valueError ("payload non valido per event_type " ++ event_type)),
         logs)
      | .ok _ =>
        match eventStatusMember "queued" with
        | none => (.error (.attributeError "queued"), logs)
        | some st =>
          (.ok ⟨event_type, setKey p "type" (.jstr event_type), st⟩,
           logs ++ [⟨event_type, setKey p "type" (.jstr event_type), st⟩])

instance {ε α : Type} [DecidableEq ε] [DecidableEq α] : DecidableEq (Except ε α) :=
  fun x y =>
    match x, y with
    | .ok a, .ok b =>
      if h : a = b then isTrue (by rw [h]) else isFalse (by intro hc; cases hc; exact h rfl)
    | .error a, .error b =>
      if h : a = b then isTrue (by rw [h]) else isFalse (by intro hc; cases hc; exact h rfl)
    | .ok _, .error _ => isFalse (by intro hc; cases hc)
    | .error _, .ok _ => isFalse (by intro hc; cases hc)

/-- A UUID4 literal used by the concrete event payloads. -/
def demoUUID : String := "123e4567-e89b-42d3-a456-426614174000"

/-- A payload that satisfies the `session_started` schema. -/
def validStartedPayload : Payload :=
  [("id", .jstr demoUUID), ("created_at", .jint 0),
   ("session_id", .jstr demoUUID), ("pin", .jstr "ABC123")]

/-- Scenario D's payload: a `session_ended` event with
`duration_seconds = -1` (and no `id`/`created_at`). -/
def negativeDurationPayload : Payload :=
  [("session_id", .jstr demoUUID), ("duration_seconds", .jint (-1))]

/-- C5 (code bug): `queue_event` can NEVER persist a `queued` outbox
row.  Every call raises and leaves the stored event-log state
untouched; in particular a perfectly valid payload dies on the
attribute lookup `EventStatus.queued`, because the enum declared in
app/models/event_log.py has members `received/sent/failed` while
migration 0006 and the event bus expect `queued/sent/failed`. -/
theorem queue_event_queued_member_missing :
    (∀ (logs : List EventLogRow) (et : String) (p : Option Payload),
       (∃ e, (queue_event logs et p).1 = .error e) ∧
       (queue_event logs et p).2 = logs) ∧
    validate_event_payload
        (setKey validStartedPayload "type" (.jstr "session_started")) = .ok () ∧
    queue_event [] "session_started" (some validStartedPayload)
      = (.error (.attributeError "queued"), []) := by
  refine ⟨?_, by decide, by decide⟩
  intro logs et p
  unfold queue_event
  by_cases he : et = ""
  · simp [he]
  · rcases p with _ | p
    · simp [he]
    · rcases hv : validate_event_payload (setKey p "type" (.jstr et)) with e | u
      · simp [he, hv]
      · simp [he, hv, eventStatusMember]

/-- C8: when the payload fails schema validation for its event type,
`queue_event` raises a `ValueError` synchronously and writes no outbox
row: the stored event-log list is returned exactly as it was, and the
event never reaches any status. -/
theorem queue_event_validation_failure_atomic (logs : List EventLogRow)
    (et : String) (p : Payload) (msg : String) (hne : et ≠ "")
    (hval : validate_event_payload (setKey p "type" (.jstr et)) = .error msg) :
    queue_event logs et (some p)
      = (.error (.valueError ("payload non valido per event_type " ++ et)), logs) := by
  unfold queue_event
  simp [hne, hval]

/-- Witness for C8, Scenario D: enqueueing `session_ended` with
`duration_seconds = -1` fails validation, raises, and writes nothing. -/
theorem queue_event_validation_failure_atomic_witness :
    "session_ended" ≠ "" ∧
    validate_event_payload
        (setKey negativeDurationPayload "type" (.jstr "session_ended"))
      = .error "validation error" ∧
    queue_event [] "session_ended" (some negativeDurationPayload)
      = (.error (.valueError ("payload non valido per event_type session_ended")),
         []) :=
  ⟨by decide, by decide,
   queue_event_validation_failure_atomic [] "session_ended"
     negativeDurationPayload "validation error" (by decide) (by decide)⟩

end AirLink
